import Mathlib

/-!
Verification of the monitored-slice library (src/index.ts).

The library builds, for one data resource, a Redux slice
`{stale, loading, data, ...callerFields}` with three built-in reducers
(`makeStale`, `makeLoading`, `fulfill`), four selectors, and an async
`load` thunk guarded by a module-level `previousParams` variable.

Shallow embedding, from the source:
  * `SliceState D E` is the slice record: the three built-in fields plus
    `extra : E` standing for all caller-defined fields.
  * `makeStale` / `makeLoading` / `fulfill` are the reducers
    (index.ts lines 157-170), parameterised by the options record.
  * `selectData` is the selector at index.ts lines 200-213.
  * `Env P D E` is a slice instance's mutable environment: the slice state
    in the store plus the module-level `previousParams` (line 215).
  * The `load` thunk (lines 221-238) has one suspension point (the `await`
    of the loader).  It is embedded as the two atomic sections around that
    point: `startRun` (lines 224-232: read state, test the trigger
    condition, update `previousParams`, dispatch `makeLoading`, capture
    `params` for the loader call) and `resumeRun` (lines 233-236: on loader
    resolution, re-check `deepEqual(previousParams, params)` and dispatch
    `fulfill`).  `runLoad` composes the two for a run with no interleaving,
    threading the loader's outcome (`Except` models promise rejection,
    which the thunk never catches).
-/

/-- Options recognised by `createMonitoredSlice` (index.ts lines 37-47).
In JS an absent flag is `undefined`, which is falsy everywhere the flags
are read, so both are modelled as `Bool` with `false` for the default. -/
structure MonitoredSliceOptions where
  resetOnStale : Bool
  resetOnLoading : Bool

/-- The monitored slice state (index.ts lines 18-22): the three built-in
fields, plus `extra : E` standing for all caller-defined fields that
coexist in the same record. -/
structure SliceState (D E : Type) where
  stale : Bool
  loading : Bool
  data : D
  extra : E

/-- Initial state of the slice (index.ts lines 149-154): caller fields
spread first, then `stale: true, loading: false, data: initialData`. -/
def initialSliceState (initialData : D) (extra0 : E) : SliceState D E :=
  { stale := true, loading := false, data := initialData, extra := extra0 }

/-- The `makeStale` reducer (index.ts lines 157-162): set `stale`, and
reset `data` to the initial value when `resetOnStale` is configured. -/
def makeStale (opts : MonitoredSliceOptions) (initialData : D)
    (s : SliceState D E) : SliceState D E :=
  let s1 := { s with stale := true }
  if opts.resetOnStale then { s1 with data := initialData } else s1

/-- The `makeLoading` reducer (index.ts lines 163-165). -/
def makeLoading (s : SliceState D E) : SliceState D E :=
  { s with loading := true }

/-- The `fulfill` reducer (index.ts lines 166-170): `action.payload.data`
is the `v` argument. -/
def fulfill (s : SliceState D E) (v : D) : SliceState D E :=
  { s with stale := false, loading := false, data := v }

/-- The `selectData` selector (index.ts lines 200-213).  Its `stale` and
`loading` inputs are `selectStale`/`selectLoading`, which read the
same slice fields, so they are taken from `s` directly. -/
def selectData (opts : MonitoredSliceOptions) (initialData : D)
    (s : SliceState D E) : D :=
  if s.stale && opts.resetOnStale then initialData
  else if s.loading && opts.resetOnLoading then initialData
  else s.data

/-- `deepEqual` from the deep-equal package, applied to loader-parameter
values: deep value equality, i.e. structural equality of the modelled
parameter type. -/
def deepEqual [DecidableEq P] (a b : P) : Bool := decide (a = b)

/-- One slice instance's mutable environment: the slice state held in the
store and the module-level `previousParams` variable (index.ts line 215). -/
structure Env (P D E : Type) where
  slice : SliceState D E
  previousParams : P

/-- First atomic section of the `load` thunk (index.ts lines 224-232),
up to the `await`: read `loading`/`stale`/`params` from the state, and if
`(stale && !loading) || !deepEqual(previousParams, params)`, assign
`previousParams := params`, dispatch `makeLoading`, and call the loader
with `params`.  Returns the new environment and `some params` (the
captured snapshot the loader was invoked with) when the condition passed,
or the unchanged environment and `none` when it did not. -/
def startRun [DecidableEq P] (env : Env P D E) (params : P) :
    Env P D E × Option P :=
  if (env.slice.stale && !env.slice.loading)
      || !(deepEqual env.previousParams params) then
    ({ slice := makeLoading env.slice, previousParams := params },
      some params)
  else
    (env, none)

/-- Second atomic section of the `load` thunk (index.ts lines 233-236),
after the `await` resolves with `result`: dispatch `fulfill` only if the
captured `params` snapshot is still deep-equal to `previousParams`;
otherwise drop the result silently. -/
def resumeRun [DecidableEq P] (env : Env P D E) (captured : P)
    (result : D) : Env P D E :=
  if deepEqual env.previousParams captured then
    { env with slice := fulfill env.slice result }
  else
    env

/-- One full run of the `load` thunk with no interleaved run, threading
the loader's outcome: `.ok d` for a promise resolved with `d`, `.error e`
for a rejected promise.  The thunk has no try/catch, so a rejection at
the `await` skips the rest of the body and propagates to the caller. -/
def runLoad {ε : Type} [DecidableEq P] (env : Env P D E) (params : P)
    (loaderResult : Except ε D) : Env P D E × Except ε Unit :=
  match startRun env params with
  | (env1, none) => (env1, Except.ok ())
  | (env1, some captured) =>
    match loaderResult with
    | Except.error e => (env1, Except.error e)
    | Except.ok d => (resumeRun env1 captured d, Except.ok ())

/-- Actions the slice's built-in reducers respond to, for reasoning about
action sequences. -/
inductive SliceAction (D : Type) where
  | makeStale
  | makeLoading
  | fulfill (v : D)
deriving DecidableEq

/-- Dispatch of one built-in action through the slice reducer
(index.ts lines 155-171). -/
def applyAction (opts : MonitoredSliceOptions) (initialData : D)
    (s : SliceState D E) : SliceAction D → SliceState D E
  | SliceAction.makeStale => makeStale opts initialData s
  | SliceAction.makeLoading => makeLoading s
  | SliceAction.fulfill v => fulfill s v

/-- Dispatch of a finite sequence of built-in actions, in order. -/
def runActions (opts : MonitoredSliceOptions) (initialData : D)
    (s : SliceState D E) (acts : List (SliceAction D)) : SliceState D E :=
  acts.foldl (applyAction opts initialData) s

def SliceAction.isFulfill : SliceAction D → Bool
  | SliceAction.fulfill _ => true
  | _ => false

def SliceAction.isMakeLoading : SliceAction D → Bool
  | SliceAction.makeLoading => true
  | _ => false

/-- The actions occurring strictly after the last `fulfill` of a
sequence (the whole sequence when it has no `fulfill`). -/
def afterLastFulfill (acts : List (SliceAction D)) : List (SliceAction D) :=
  (acts.reverse.takeWhile (fun a => !a.isFulfill)).reverse

/-- Specification predicate for claim C4: the sequence contains a
`makeLoading` after its last `fulfill`. -/
def loadingSpec (acts : List (SliceAction D)) : Bool :=
  (afterLastFulfill acts).any SliceAction.isMakeLoading

/-! ## Claims about the reducers and selectors -/

/-- C3: for every prior slice state, `fulfill` with payload value `v`
yields `stale = false`, `loading = false`, `data = v`, with all
caller-defined extra fields unchanged. -/
theorem fulfill_resets_flags_and_stores_payload
    (s : SliceState D E) (v : D) :
    fulfill s v =
      { stale := false, loading := false, data := v, extra := s.extra } := by
  rfl

/-- C8: for every prior slice state, `makeLoading` sets `loading = true`
and leaves `stale`, `data` and the caller-defined extra fields at their
prior values (independently of the configured options, which the reducer
never reads). -/
theorem makeLoading_only_sets_loading (s : SliceState D E) :
    makeLoading s =
      { stale := s.stale, loading := true, data := s.data,
        extra := s.extra } := by
  rfl

/-- C6: for every prior slice state, `makeStale` sets `stale = true`;
it resets `data` to the configured initial value exactly when
`resetOnStale` is configured, and otherwise leaves `data` unchanged;
`loading` and the caller-defined extra fields are unchanged either way. -/
theorem makeStale_sets_stale_resets_data_iff_configured
    (opts : MonitoredSliceOptions) (initialData : D) (s : SliceState D E) :
    (makeStale opts initialData s).stale = true
    ∧ (opts.resetOnStale = true →
        (makeStale opts initialData s).data = initialData)
    ∧ (opts.resetOnStale = false →
        (makeStale opts initialData s).data = s.data)
    ∧ (makeStale opts initialData s).loading = s.loading
    ∧ (makeStale opts initialData s).extra = s.extra := by
  unfold makeStale
  cases h : opts.resetOnStale <;> simp [h]

/-- Witness for C6 at a concrete input: `resetOnStale = true`, so the
reducer resets the data field to the initial value. -/
theorem makeStale_sets_stale_resets_data_iff_configured_witness :
    (makeStale ⟨true, false⟩ (0 : Nat)
      ({ stale := false, loading := true, data := 7,
         extra := () } : SliceState Nat Unit)).data = 0 :=
  (makeStale_sets_stale_resets_data_iff_configured ⟨true, false⟩ 0
    { stale := false, loading := true, data := 7, extra := () }).2.1 rfl

/-- C5: `selectData` returns the initial value when `stale` holds and
reset-on-stale is configured; otherwise the initial value when `loading`
holds and reset-on-loading is configured; otherwise the stored data.
When both resetting branches apply at once, the stale branch is taken
first and the result is still the initial value. -/
theorem selectData_policy
    (opts : MonitoredSliceOptions) (initialData : D) (s : SliceState D E) :
    (s.stale = true → opts.resetOnStale = true →
        selectData opts initialData s = initialData)
    ∧ (¬(s.stale = true ∧ opts.resetOnStale = true) →
        s.loading = true → opts.resetOnLoading = true →
        selectData opts initialData s = initialData)
    ∧ (¬(s.stale = true ∧ opts.resetOnStale = true) →
        ¬(s.loading = true ∧ opts.resetOnLoading = true) →
        selectData opts initialData s = s.data) := by
  unfold selectData
  cases hs : s.stale <;> cases hl : s.loading <;>
    cases hrs : opts.resetOnStale <;> cases hrl : opts.resetOnLoading <;>
    simp_all

/-- Witness for C5 at a concrete input: both `stale` (with reset-on-stale)
and `loading` (with reset-on-loading) hold, and the result is the initial
value, via the stale branch. -/
theorem selectData_policy_witness :
    selectData ⟨true, true⟩ (0 : Nat)
      ({ stale := true, loading := true, data := 7,
         extra := () } : SliceState Nat Unit) = 0 :=
  (selectData_policy ⟨true, true⟩ 0
    { stale := true, loading := true, data := 7, extra := () }).1 rfl rfl

/-! ## Claims about the load thunk -/

/-- C2: the `load` thunk dispatches `makeLoading` and calls the external
loader iff, in the state read at invocation, `(stale AND NOT loading)`
holds or the current params differ from the tracked `previousParams`;
when the condition fails the thunk performs no action and leaves the
environment (slice state and `previousParams`) unchanged.  In particular
`stale = true` with `loading = true` and unchanged params does not
trigger. -/
theorem load_triggers_iff_stale_or_params_changed
    [DecidableEq P] (env : Env P D E) (params : P) :
    ((startRun env params).2.isSome = true ↔
      ((env.slice.stale = true ∧ env.slice.loading = false)
        ∨ env.previousParams ≠ params))
    ∧ ((startRun env params).2 = none → (startRun env params).1 = env)
    ∧ ((startRun env params).2.isSome = true →
        startRun env params =
          ({ slice := makeLoading env.slice, previousParams := params },
            some params)) := by
  unfold startRun deepEqual
  by_cases hp : env.previousParams = params <;>
    cases hs : env.slice.stale <;> cases hl : env.slice.loading <;>
    simp [hp, hs, hl]

/-- Witness for C2 at a concrete input: `stale = true, loading = false`
makes the trigger condition hold, and the thunk updates `previousParams`
and dispatches `makeLoading`. -/
theorem load_triggers_iff_stale_or_params_changed_witness :
    startRun
      ({ slice := { stale := true, loading := false, data := 0,
                    extra := () },
         previousParams := 5 } : Env Nat Nat Unit) 5 =
      ({ slice := { stale := true, loading := true, data := 0,
                    extra := () },
         previousParams := 5 }, some 5) :=
  (load_triggers_iff_stale_or_params_changed
    { slice := { stale := true, loading := false, data := 0, extra := () },
      previousParams := 5 } 5).2.2 (by decide)

/-- C9: a parameter change triggers a new load even while a load is
already in flight: whenever `loading = true` but the current params are
deep-unequal to `previousParams`, the thunk's condition still passes, so
it updates `previousParams`, dispatches `makeLoading`, and invokes the
loader with the new params. -/
theorem param_change_triggers_during_flight
    [DecidableEq P] (env : Env P D E) (params : P)
    (_hl : env.slice.loading = true)
    (hp : env.previousParams ≠ params) :
    startRun env params =
      ({ slice := makeLoading env.slice, previousParams := params },
        some params) := by
  unfold startRun deepEqual
  simp [hp]

/-- Witness for C9 at a concrete input: `loading = true` and params
changed from 1 to 2; the thunk still starts a new loader call. -/
theorem param_change_triggers_during_flight_witness :
    startRun
      ({ slice := { stale := false, loading := true, data := 0,
                    extra := () },
         previousParams := 1 } : Env Nat Nat Unit) 2 =
      ({ slice := { stale := false, loading := true, data := 0,
                    extra := () },
         previousParams := 2 }, some 2) :=
  param_change_triggers_during_flight
    { slice := { stale := false, loading := true, data := 0, extra := () },
      previousParams := 1 } 2 rfl (by decide)

/-- C7: when a triggered run's loader rejects, the rejection propagates
out of the thunk (which has no catch), no `fulfill` is dispatched, and
the slice is left with `loading = true` (from the preceding
`makeLoading`) while `stale`, `data` and the caller fields keep the
values they had at invocation. -/
theorem loader_rejection_leaves_loading
    {ε : Type} [DecidableEq P] (env : Env P D E) (params : P) (err : ε)
    (htrig : (startRun env params).2.isSome = true) :
    (runLoad env params (Except.error err)).2 = Except.error err
    ∧ (runLoad env params (Except.error err)).1.slice.loading = true
    ∧ (runLoad env params (Except.error err)).1.slice.stale
        = env.slice.stale
    ∧ (runLoad env params (Except.error err)).1.slice.data
        = env.slice.data
    ∧ (runLoad env params (Except.error err)).1.slice.extra
        = env.slice.extra := by
  by_cases hc : ((env.slice.stale && !env.slice.loading)
      || !(deepEqual env.previousParams params)) = true
  · simp [runLoad, startRun, makeLoading, hc]
  · simp [startRun, hc] at htrig

/-- Witness for C7 at a concrete input: a stale, non-loading slice whose
loader rejects ends with `loading = true` and the error propagated. -/
theorem loader_rejection_leaves_loading_witness :
    (runLoad
      ({ slice := { stale := true, loading := false, data := 3,
                    extra := () },
         previousParams := 0 } : Env Nat Nat Unit) 0
      (Except.error "boom")).2 = Except.error "boom" :=
  (loader_rejection_leaves_loading
    { slice := { stale := true, loading := false, data := 3, extra := () },
      previousParams := 0 } 0 "boom" (by decide)).1

/-- C1: two overlapping runs with parameter snapshots `p1` then `p2`
(the second starting before the first's loader resolves, after which
`previousParams = p2`).  The second run does start (its param-change
disjunct holds), the first run's resumption dispatches no `fulfill`
(its captured snapshot `p1` is no longer equal to `previousParams`), and
in both resolution orders the final slice data is the loader's result
for `p2`, never the result for `p1`. -/
theorem overlapping_runs_last_params_win
    [DecidableEq P] (env0 : Env P D E) (p1 p2 : P) (loader : P → D)
    (h1 : (startRun env0 p1).2 = some p1)
    (hne : p1 ≠ p2) :
    ((startRun (startRun env0 p1).1 p2).2 = some p2)
    ∧ (resumeRun (startRun (startRun env0 p1).1 p2).1 p1 (loader p1)
        = (startRun (startRun env0 p1).1 p2).1)
    ∧ ((resumeRun
          (resumeRun (startRun (startRun env0 p1).1 p2).1 p1 (loader p1))
          p2 (loader p2)).slice.data = loader p2)
    ∧ ((resumeRun
          (resumeRun (startRun (startRun env0 p1).1 p2).1 p2 (loader p2))
          p1 (loader p1)).slice.data = loader p2) := by
  have henv1 : (startRun env0 p1).1 =
      { slice := makeLoading env0.slice, previousParams := p1 } := by
    unfold startRun at h1 ⊢
    by_cases hc : ((env0.slice.stale && !env0.slice.loading)
        || !(deepEqual env0.previousParams p1)) = true
    · simp [hc]
    · simp [hc] at h1
  have henv2 : startRun (startRun env0 p1).1 p2 =
      ({ slice := makeLoading (makeLoading env0.slice),
         previousParams := p2 }, some p2) := by
    rw [henv1]
    unfold startRun deepEqual
    simp [hne]
  have hne2 : p2 ≠ p1 := fun h => hne h.symm
  refine ⟨by rw [henv2], ?_, ?_, ?_⟩
  · rw [henv2]
    simp [resumeRun, deepEqual, hne2]
  · rw [henv2]
    simp [resumeRun, deepEqual, fulfill, hne2]
  · rw [henv2]
    simp [resumeRun, deepEqual, fulfill, hne2]

/-- Witness for C1 at concrete inputs: a stale idle slice, params 1 then
2, loader the identity.  The first run starts, and in both resolution
orders the final data is 2 (the result for the second params), never 1. -/
theorem overlapping_runs_last_params_win_witness :
    ((startRun
      ({ slice := { stale := true, loading := false, data := 0,
                    extra := () },
         previousParams := 0 } : Env Nat Nat Unit) 1).2 = some 1)
    ∧ ((resumeRun
          (resumeRun
            (startRun
              (startRun
                ({ slice := { stale := true, loading := false, data := 0,
                              extra := () },
                   previousParams := 0 } : Env Nat Nat Unit) 1).1 2).1
            1 1) 2 2).slice.data = 2)
    ∧ ((resumeRun
          (resumeRun
            (startRun
              (startRun
                ({ slice := { stale := true, loading := false, data := 0,
                              extra := () },
                   previousParams := 0 } : Env Nat Nat Unit) 1).1 2).1
            2 2) 1 1).slice.data = 2) :=
  ⟨by decide,
    (overlapping_runs_last_params_win
      { slice := { stale := true, loading := false, data := 0,
                   extra := () },
        previousParams := 0 } 1 2 (fun p => p) (by decide)
      (by decide)).2.2.1,
    (overlapping_runs_last_params_win
      { slice := { stale := true, loading := false, data := 0,
                   extra := () },
        previousParams := 0 } 1 2 (fun p => p) (by decide)
      (by decide)).2.2.2⟩

/-! ## Claim about action sequences -/

/-- `makeStale` never changes the `loading` field, whichever branch the
`resetOnStale` option selects. -/
theorem makeStale_loading (opts : MonitoredSliceOptions) (initialData : D)
    (s : SliceState D E) :
    (makeStale opts initialData s).loading = s.loading := by
  unfold makeStale
  cases opts.resetOnStale <;> simp

/-- How `loadingSpec` evolves when one more action is appended: a
`fulfill` clears it, a `makeLoading` sets it, anything else keeps it. -/
theorem loadingSpec_append_singleton (l : List (SliceAction D))
    (a : SliceAction D) :
    loadingSpec (l ++ [a]) =
      if a.isFulfill then false
      else (loadingSpec l || a.isMakeLoading) := by
  cases a <;>
    simp [loadingSpec, afterLastFulfill, List.takeWhile_cons,
      SliceAction.isFulfill, SliceAction.isMakeLoading]

/-- The `loading` field after an arbitrary action sequence from an
arbitrary start state: it is set by a `makeLoading` after the last
`fulfill`, and otherwise survives from the start state only when no
`fulfill` occurred. -/
theorem runActions_loading_eq (opts : MonitoredSliceOptions)
    (initialData : D) (s : SliceState D E) (acts : List (SliceAction D)) :
    (runActions opts initialData s acts).loading =
      (loadingSpec acts
        || (s.loading && !(acts.any SliceAction.isFulfill))) := by
  induction acts using List.reverseRecOn with
  | nil => simp [runActions, loadingSpec, afterLastFulfill]
  | append_singleton l a ih =>
    have hstep : runActions opts initialData s (l ++ [a]) =
        applyAction opts initialData (runActions opts initialData s l) a := by
      simp [runActions, List.foldl_append]
    rw [hstep, loadingSpec_append_singleton]
    cases a with
    | makeStale =>
      simp [applyAction, makeStale_loading, ih, SliceAction.isFulfill,
        SliceAction.isMakeLoading]
    | makeLoading =>
      simp [applyAction, makeLoading, SliceAction.isFulfill,
        SliceAction.isMakeLoading]
    | fulfill v =>
      simp [applyAction, fulfill, SliceAction.isFulfill]

/-- C4: starting from the initial slice state, after any finite sequence
of `makeStale` / `makeLoading` / `fulfill` actions the `loading` flag is
true exactly when the sequence contains a `makeLoading` occurring after
its last `fulfill` (after the start of the sequence when it has no
`fulfill`). -/
theorem loading_iff_makeLoading_since_fulfill
    (opts : MonitoredSliceOptions) (initialData : D) (extra0 : E)
    (acts : List (SliceAction D)) :
    (runActions opts initialData (initialSliceState initialData extra0)
        acts).loading = loadingSpec acts := by
  rw [runActions_loading_eq]
  simp [initialSliceState]

/-! ## Claim about caller-supplied name collisions -/

/-- JS object-literal update: `objSet obj k v` models `{...obj, k: v}`.
A property written later in the literal shadows any same-named property
spread in earlier, which `objGet` reflects by finding the most recently
written binding first. -/
def objSet (obj : List (String × α)) (k : String) (v : α) :
    List (String × α) :=
  (k, v) :: obj

/-- Property lookup on the object model: the most recently written
binding for a key wins. -/
def objGet : List (String × α) → String → Option α
  | [], _ => none
  | (k1, v) :: rest, k => if k1 = k then some v else objGet rest k

/-- The reducers map built by `createMonitoredSlice` (index.ts lines
155-171): the caller's reducers are spread first, then the three
built-in case reducers are written. -/
def mergedReducers (callerReducers : List (String × α))
    (makeStaleR makeLoadingR fulfillR : α) : List (String × α) :=
  objSet (objSet (objSet callerReducers "makeStale" makeStaleR)
    "makeLoading" makeLoadingR) "fulfill" fulfillR

/-- A field value of the initial-state object: one of the built-in
fields' values, or an opaque caller-supplied value. -/
inductive JsValue (D : Type) where
  | bool : Bool → JsValue D
  | data : D → JsValue D
  | raw : Nat → JsValue D

/-- The initial state object built by `createMonitoredSlice` (index.ts
lines 149-154): the caller's initial state is spread first, then
`stale: true, loading: false, data: initialData` are written. -/
def mergedInitialState (callerInit : List (String × JsValue D))
    (initialData : D) : List (String × JsValue D) :=
  objSet (objSet (objSet callerInit "stale" (JsValue.bool true))
    "loading" (JsValue.bool false)) "data" (JsValue.data initialData)

/-- C10: because the caller's entries are spread before the built-in
ones, a caller-supplied reducer named `makeStale`, `makeLoading` or
`fulfill`, or a caller-supplied initial-state field named `stale`,
`loading` or `data`, is silently shadowed: lookup always yields the
built-in entry, so the colliding caller entry is never invoked and the
initial state always carries `stale = true`, `loading = false`,
`data = initialData`.  Non-colliding names fall through to the caller's
entries. -/
theorem builtin_entries_shadow_caller
    (callerReducers : List (String × α))
    (makeStaleR makeLoadingR fulfillR : α)
    (callerInit : List (String × JsValue D)) (initialData : D) :
    objGet (mergedReducers callerReducers makeStaleR makeLoadingR fulfillR)
        "makeStale" = some makeStaleR
    ∧ objGet (mergedReducers callerReducers makeStaleR makeLoadingR
        fulfillR) "makeLoading" = some makeLoadingR
    ∧ objGet (mergedReducers callerReducers makeStaleR makeLoadingR
        fulfillR) "fulfill" = some fulfillR
    ∧ (∀ k, k ≠ "makeStale" → k ≠ "makeLoading" → k ≠ "fulfill" →
        objGet (mergedReducers callerReducers makeStaleR makeLoadingR
          fulfillR) k = objGet callerReducers k)
    ∧ objGet (mergedInitialState callerInit initialData) "stale"
        = some (JsValue.bool true)
    ∧ objGet (mergedInitialState callerInit initialData) "loading"
        = some (JsValue.bool false)
    ∧ objGet (mergedInitialState callerInit initialData) "data"
        = some (JsValue.data initialData)
    ∧ (∀ k, k ≠ "stale" → k ≠ "loading" → k ≠ "data" →
        objGet (mergedInitialState callerInit initialData) k
          = objGet callerInit k) := by
  refine ⟨?_, ?_, ?_, fun k h1 h2 h3 => ?_, ?_, ?_, ?_,
    fun k h1 h2 h3 => ?_⟩
  · simp [mergedReducers, objSet, objGet]
  · simp [mergedReducers, objSet, objGet]
  · simp [mergedReducers, objSet, objGet]
  · simp [mergedReducers, objSet, objGet, Ne.symm h1, Ne.symm h2,
      Ne.symm h3]
  · simp [mergedInitialState, objSet, objGet]
  · simp [mergedInitialState, objSet, objGet]
  · simp [mergedInitialState, objSet, objGet]
  · simp [mergedInitialState, objSet, objGet, Ne.symm h1, Ne.symm h2,
      Ne.symm h3]

/-- Witness for C10 at a concrete input: even when the caller supplies
a colliding `makeStale` reducer entry and a colliding `stale` field,
lookup returns the built-in entries. -/
theorem builtin_entries_shadow_caller_witness :
    objGet (mergedReducers [("makeStale", 99)] 1 2 3) "makeStale" = some 1
    ∧ objGet (mergedReducers ([] : List (String × Nat)) 1 2 3) "other"
        = none
    ∧ objGet
        (mergedInitialState [("stale", JsValue.bool false)] (5 : Nat))
        "stale" = some (JsValue.bool true) :=
  ⟨(builtin_entries_shadow_caller [("makeStale", 99)] 1 2 3 [] 5).1,
    (builtin_entries_shadow_caller ([] : List (String × Nat)) 1 2 3
      ([] : List (String × JsValue Nat)) 5).2.2.2.1 "other"
      (by decide) (by decide) (by decide),
    (builtin_entries_shadow_caller ([] : List (String × Nat)) 1 2 3
      [("stale", JsValue.bool false)] (5 : Nat)).2.2.2.2.1⟩
